import Mathlib

/-!
Verification of the Airflow image-factory application (`app/app.py`).

The application consists of a pure Dockerfile template renderer
(`generate_dockerfile`), a build dispatcher (`send_build_request` plus the
`build_params` dictionary), and an extras-allowlist reader
(`read_extras_from_file`).  Each Python function is embedded below as an
executable Lean definition; strings are modelled by `String`, Python lists
by `List String`, the optional `custom_airflow_cfg` argument by
`Option String` with Python truthiness (`pyTruthy`).
-/

/-- Python's `str.isspace` on the ASCII whitespace characters stripped by
`str.strip()` with no argument: space, tab, newline, carriage return,
vertical tab, form feed. -/
def pyIsSpace (c : Char) : Bool :=
  c == ' ' || c == '\t' || c == '\n' || c == '\r' || c == '\x0b' || c == '\x0c'

/-- Python's `str.strip()`: remove leading and trailing whitespace. -/
def pyStrip (s : String) : String :=
  String.mk (((s.data.dropWhile pyIsSpace).reverse.dropWhile pyIsSpace).reverse)

/-- Python's `sep.join(parts)`. -/
def pyJoin (sep : String) : List String → String
  | [] => ""
  | [s] => s
  | s :: s' :: rest => s ++ sep ++ pyJoin sep (s' :: rest)

/-- Python truthiness of the optional `custom_airflow_cfg` argument:
`None` and the empty string are falsy, every other string is truthy. -/
def pyTruthy : Option String → Bool
  | none => false
  | some s => !(s == "")

/-- Embedding of `read_extras_from_file` (app.py lines 13-18).  The opened
file is modelled by its list of physical lines (without the trailing
newline of each line, which `strip()` would remove and which does not
affect `startswith("#")`).  The Python list comprehension filters the
lines and then strips each kept line. -/
def read_extras_from_file (fileLines : List String) : List String :=
  (fileLines.filter
    (fun line => !(pyStrip line == "") && !(line.startsWith ("#")))).map pyStrip

/-- The allowlist as the specification words it, for comparison with
`read_extras_from_file`: walk the lines in file order; a blank
(whitespace-only) line is ignored, a line beginning with `#` is ignored,
any other line contributes its stripped text. -/
def allowlistOfLines (fileLines : List String) : List String :=
  fileLines.filterMap (fun line =>
    if pyStrip line = "" then none
    else if line.startsWith ("#") then none
    else some (pyStrip line))

/-- Embedding of `generate_dockerfile` (app.py lines 21-56).  The body is
the f-string template of lines 30-46, followed by the conditional
config-copy block of lines 47-51 and the `CMD` epilogue of lines 53-55.
The `base_image` parameter is accepted but, exactly as in the source,
never interpolated. -/
def generate_dockerfile (airflow_version python_version base_image : String)
    (extras apt_deps pip_deps : List String)
    (custom_airflow_cfg : Option String := none) : String :=
  let dockerfile :=
    "\nFROM apache/airflow:" ++ airflow_version ++ "-python" ++ python_version ++
    "\n\nUSER root\n\n# Install apt dependencies\nRUN apt-get update && apt-get install -y --no-install-recommends " ++
    pyJoin (" ") apt_deps ++
    " && \\\n    apt-get autoremove -yqq --purge && \\\n    apt-get clean && \\\n    rm -rf /var/lib/apt/lists/*\n\nUSER airflow\n\n# Install Airflow with extras and additional pip dependencies\nRUN pip install --no-cache-dir \"apache-airflow[" ++
    pyJoin (",") extras ++ "]==" ++ airflow_version ++ "\" " ++
    pyJoin (" ") pip_deps ++ "\n\n"
  let dockerfile :=
    if pyTruthy custom_airflow_cfg then
      dockerfile ++ "\n# Copy custom airflow.cfg\nCOPY airflow.cfg /opt/airflow/airflow.cfg\n"
    else
      dockerfile
  dockerfile ++ "\nCMD [\"airflow\"]\n"

/-- A build request as assembled by the form (app.py lines 76-121):
the six template/dispatch parameters plus the optional custom config. -/
structure BuildRequest where
  airflowVersion : String
  pythonVersion : String
  baseImage : String
  extras : List String
  aptDeps : List String
  pipDeps : List String
  customConfig : Option String

/-- Rendering a `BuildRequest`: `generate_dockerfile` applied to its
fields (app.py lines 97-105). -/
def render (r : BuildRequest) : String :=
  generate_dockerfile r.airflowVersion r.pythonVersion r.baseImage
    r.extras r.aptDeps r.pipDeps r.customConfig

/-- JSON values occurring in the `build_params` dictionary: strings and
lists of strings. -/
inductive JVal where
  | jstr : String → JVal
  | jlist : List String → JVal

/-- Embedding of the `build_params` dictionary (app.py lines 114-121):
exactly six keys, in source order, each bound to the corresponding
request value.  `customConfig` does not appear. -/
def build_params (r : BuildRequest) : List (String × JVal) :=
  [("airflow_version", JVal.jstr r.airflowVersion),
   ("python_version", JVal.jstr r.pythonVersion),
   ("base_image", JVal.jstr r.baseImage),
   ("extras", JVal.jlist r.extras),
   ("apt_deps", JVal.jlist r.aptDeps),
   ("pip_deps", JVal.jlist r.pipDeps)]

/-- The hardcoded dispatch endpoint (app.py line 60). -/
def api_url : String := "http://172.17.0.1:8081/build-and-push"

/-- The single HTTP POST issued by a dispatch (app.py line 62): the fixed
URL together with the JSON dictionary sent as the request body. -/
def dispatchRequest (r : BuildRequest) : String × List (String × JVal) :=
  (api_url, build_params r)

/-- JSON string escaping for one character (quotation mark and backslash;
a simplified model of the `json.dumps` escaper, which only matters here
as some fixed function of the dictionary). -/
def jsonEscapeChar (c : Char) : String :=
  if c = '"' then "\\\"" else if c = '\\' then "\\\\" else String.singleton c

/-- A JSON string literal. -/
def jsonString (s : String) : String :=
  "\"" ++ String.join (s.data.map jsonEscapeChar) ++ "\""

/-- Serialization of one `build_params` value. -/
def encodeJVal : JVal → String
  | JVal.jstr s => jsonString s
  | JVal.jlist xs => "[" ++ pyJoin (", ") (xs.map jsonString) ++ "]"

/-- Serialization of the `build_params` dictionary, modelling the JSON
body produced by `requests.post(..., json=build_params)`. -/
def serializeParams (ps : List (String × JVal)) : String :=
  "\x7b" ++
    pyJoin (", ") (ps.map (fun kv => jsonString kv.fst ++ ": " ++ encodeJVal kv.snd)) ++
  "\x7d"

/-- The observable outcome of the one `requests.post` call of a dispatch:
either the call raises a transport-level `RequestException` (connection
refused, timeout, DNS failure, ...) carrying a description, or a response
arrives with an HTTP status code and a body, the body modelled as the
parsed JSON object (`none` when the body is not valid JSON, in which case
`response.json()` raises `requests.exceptions.JSONDecodeError`). -/
inductive HttpOutcome where
  | exn : String → HttpOutcome
  | resp : Nat → Option (List (String × String)) → HttpOutcome

/-- The exceptions of the `requests` library that the dispatch handler can
observe, with `str(e)` modelled by `exnMessage`. -/
inductive ReqException where
  | transportFailure : String → ReqException
  | httpError : Nat → ReqException
  | jsonDecodeFailure : ReqException

/-- Python's `str(e)` on a caught `RequestException`. -/
def exnMessage : ReqException → String
  | ReqException.transportFailure d => d
  | ReqException.httpError status => "HTTP error " ++ toString status
  | ReqException.jsonDecodeFailure => "Invalid JSON body"

/-- Embedding of `send_build_request` (app.py lines 59-71).  The function
performs one POST; `response.raise_for_status()` raises `HTTPError`
exactly for 4xx and 5xx status codes (the documented behaviour of
`requests`), `response.json()` raises `JSONDecodeError` on an unparsable
body, and every `requests.exceptions.RequestException` is caught by the
handler of lines 69-71, which shows the error with `st.error` and returns
`None`.  The second component collects the error messages shown. -/
def send_build_request (outcome : HttpOutcome) :
    Option (List (String × String)) × List String :=
  match outcome with
  | HttpOutcome.exn desc =>
      (none, ["Error sending build request: " ++
                exnMessage (ReqException.transportFailure desc)])
  | HttpOutcome.resp status body =>
      if 400 ≤ status ∧ status < 600 then
        (none, ["Error sending build request: " ++
                  exnMessage (ReqException.httpError status)])
      else
        match body with
        | none => (none, ["Error sending build request: " ++
                            exnMessage ReqException.jsonDecodeFailure])
        | some obj => (some obj, [])

/-- A dispatch run against a transport oracle giving the outcome of the
n-th network attempt.  The code performs exactly one `requests.post`
call, so only attempt 0 is ever consumed. -/
def send_build_request_first (oracle : Nat → HttpOutcome) :
    Option (List (String × String)) × List String :=
  send_build_request (oracle 0)

/-- Whether executing the dispatch on the given outcome raises a
`requests.exceptions.RequestException` somewhere inside the `try` block:
the POST itself raises, `raise_for_status` raises (4xx/5xx), or
`response.json()` raises on an undecodable body. -/
def raisesRequestException : HttpOutcome → Bool
  | HttpOutcome.exn _ => true
  | HttpOutcome.resp status body =>
      (decide (400 ≤ status) && decide (status < 600)) || body.isNone

/-- Split a character list at every newline character; n newlines yield
n+1 segments.  Measurement function used to speak about the lines of the
rendered Dockerfile text. -/
def splitLinesAux : List Char → List Char → List (List Char)
  | [], acc => [acc.reverse]
  | c :: cs, acc =>
      if c = '\n' then acc.reverse :: splitLinesAux cs []
      else splitLinesAux cs (c :: acc)

/-- The segments of a character list between newline characters. -/
def splitLines (cs : List Char) : List (List Char) :=
  splitLinesAux cs []

/-- Join a list of lines with newline separators (inverse of
`splitLines` on newline-free lines). -/
def joinLinesStr : List String → String
  | [] => ""
  | [l] => l
  | l :: l' :: ls => l ++ "\n" ++ joinLinesStr (l' :: ls)

/-- The lines of a string. -/
def linesOfStr (s : String) : List String :=
  (splitLines s.data).map (fun cs => String.mk cs)

/-- The first non-empty line of a text: for a Dockerfile, its first
instruction. -/
def firstInstruction (s : String) : Option String :=
  (linesOfStr s).find? (fun l => !(l == ""))

/-- `prefixOfB pat cs` decides whether `pat` is a prefix of `cs`. -/
def prefixOfB : List Char → List Char → Bool
  | [], _ => true
  | _ :: _, [] => false
  | c :: cs, d :: ds => c == d && prefixOfB cs ds

/-- `factorOfB pat cs` decides whether `pat` occurs contiguously
somewhere inside `cs`. -/
def factorOfB (pat : List Char) : List Char → Bool
  | [] => prefixOfB pat []
  | c :: rest => prefixOfB pat (c :: rest) || factorOfB pat rest

/-- Substring containment on strings. -/
def containsStr (s pat : String) : Bool :=
  factorOfB pat.data s.data

/-- The apt-get install line of the rendered Dockerfile (app.py line 36):
the fixed flags followed by the space-joined apt dependencies. -/
def aptInstallLine (apt_deps : List String) : String :=
  "RUN apt-get update && apt-get install -y --no-install-recommends " ++
    pyJoin (" ") apt_deps ++ " && \\"

/-- The pip install line of the rendered Dockerfile (app.py line 44). -/
def pipInstallLine (extras : List String) (airflow_version : String)
    (pip_deps : List String) : String :=
  "RUN pip install --no-cache-dir \"apache-airflow[" ++
    pyJoin (",") extras ++ "]==" ++ airflow_version ++ "\" " ++
    pyJoin (" ") pip_deps

/-- The line decomposition of `generate_dockerfile`'s output. -/
def renderedLines (airflow_version python_version : String)
    (extras apt_deps pip_deps : List String)
    (custom_airflow_cfg : Option String) : List String :=
  ["",
   "FROM apache/airflow:" ++ airflow_version ++ "-python" ++ python_version,
   "",
   "USER root",
   "",
   "# Install apt dependencies",
   aptInstallLine apt_deps,
   "    apt-get autoremove -yqq --purge && \\",
   "    apt-get clean && \\",
   "    rm -rf /var/lib/apt/lists/*",
   "",
   "USER airflow",
   "",
   "# Install Airflow with extras and additional pip dependencies",
   pipInstallLine extras airflow_version pip_deps,
   "",
   ""] ++
  (if pyTruthy custom_airflow_cfg then
     ["# Copy custom airflow.cfg",
      "COPY airflow.cfg /opt/airflow/airflow.cfg",
      ""]
   else []) ++
  ["CMD [\"airflow\"]",
   ""]

/-- A string free of newline characters.  The form fields satisfy this by
construction: versions come from a single-line input and a fixed select
box, extras from the single-line allowlist entries, and the dependency
lists from splitting a text area on newlines. -/
def noNL (s : String) : Prop := '\n' ∉ s.data

/-- The example request of the specification: Airflow 2.9.3 on Python
3.10 with the postgres and redis extras, vim as the only apt dependency,
no extra pip dependencies and no custom config. -/
def exampleRequest : BuildRequest :=
  { airflowVersion := "2.9.3"
    pythonVersion := "3.10"
    baseImage := "slim"
    extras := ["postgres", "redis"]
    aptDeps := ["vim"]
    pipDeps := []
    customConfig := none }

theorem splitLinesAux_no_newline (a : List Char) (h : '\n' ∉ a) :
    ∀ (b acc : List Char), splitLinesAux (a ++ b) acc = splitLinesAux b (a.reverse ++ acc) := by
  induction a with
  | nil => intro b acc; simp
  | cons c a ih =>
      intro b acc
      have hc : ¬(c = '\n') := by
        intro hc
        exact h (hc ▸ List.mem_cons_self c a)
      have hstep : splitLinesAux ((c :: a) ++ b) acc = splitLinesAux (a ++ b) (c :: acc) := by
        show splitLinesAux (c :: (a ++ b)) acc = splitLinesAux (a ++ b) (c :: acc)
        simp [splitLinesAux, hc]
      rw [hstep, ih (fun hm => h (List.mem_cons_of_mem c hm)) b (c :: acc)]
      simp

theorem splitLines_cons (a b : List Char) (h : '\n' ∉ a) :
    splitLines (a ++ '\n' :: b) = a :: splitLines b := by
  unfold splitLines
  rw [splitLinesAux_no_newline a h ('\n' :: b) []]
  simp [splitLinesAux]

theorem splitLines_single (a : List Char) (h : '\n' ∉ a) : splitLines a = [a] := by
  have h0 : splitLines (a ++ []) = splitLines a := by simp
  rw [← h0]
  unfold splitLines
  rw [splitLinesAux_no_newline a h [] []]
  simp [splitLinesAux]

theorem noNL_append {s t : String} (hs : noNL s) (ht : noNL t) : noNL (s ++ t) := by
  simp only [noNL, String.data_append, List.mem_append, not_or]
  exact ⟨hs, ht⟩

theorem noNL_pyJoin (sep : String) (hsep : noNL sep) :
    ∀ (l : List String), (∀ x ∈ l, noNL x) → noNL (pyJoin sep l) := by
  intro l
  induction l with
  | nil => intro _; exact (show ('\n' ∉ ("" : String).data) by decide)
  | cons x xs ih =>
      intro h
      cases xs with
      | nil => exact h x (List.mem_cons_self x [])
      | cons y ys =>
          have hx : noNL x := h x (List.mem_cons_self x (y :: ys))
          have hrest : noNL (pyJoin sep (y :: ys)) :=
            ih (fun z hz => h z (List.mem_cons_of_mem x hz))
          exact noNL_append (noNL_append hx hsep) hrest

theorem splitLines_joinLinesStr :
    ∀ (ls : List String), ls ≠ [] → (∀ l ∈ ls, noNL l) →
      splitLines (joinLinesStr ls).data = ls.map String.data := by
  intro ls
  induction ls with
  | nil => intro hne _; exact absurd rfl hne
  | cons x xs ih =>
      intro _ h
      cases xs with
      | nil =>
          simp only [joinLinesStr, List.map]
          exact splitLines_single x.data (h x (List.mem_cons_self x []))
      | cons y ys =>
          have hx : noNL x := h x (List.mem_cons_self x (y :: ys))
          have hstep : (joinLinesStr (x :: y :: ys)).data
              = x.data ++ '\n' :: (joinLinesStr (y :: ys)).data := by
            show (x ++ "\n" ++ joinLinesStr (y :: ys)).data = _
            simp [String.data_append]
          rw [hstep, splitLines_cons x.data _ hx,
              ih (by simp) (fun z hz => h z (List.mem_cons_of_mem x hz))]
          simp

theorem linesOfStr_joinLinesStr (ls : List String) (hne : ls ≠ [])
    (h : ∀ l ∈ ls, noNL l) : linesOfStr (joinLinesStr ls) = ls := by
  unfold linesOfStr
  rw [splitLines_joinLinesStr ls hne h, List.map_map]
  have hid : ((fun cs => String.mk cs) ∘ String.data) = id := funext (fun s => rfl)
  rw [hid, List.map_id]

theorem noNL_fromLine {av pv : String} (hav : noNL av) (hpv : noNL pv) :
    noNL ("FROM apache/airflow:" ++ av ++ "-python" ++ pv) :=
  noNL_append (noNL_append (noNL_append
    (show ('\n' ∉ ("FROM apache/airflow:" : String).data) by decide) hav)
    (show ('\n' ∉ ("-python" : String).data) by decide)) hpv

theorem noNL_aptInstallLine {a : List String} (ha : ∀ x ∈ a, noNL x) :
    noNL (aptInstallLine a) :=
  noNL_append (noNL_append
    (show ('\n' ∉ ("RUN apt-get update && apt-get install -y --no-install-recommends " : String).data) by decide)
    (noNL_pyJoin (" ") (show ('\n' ∉ (" " : String).data) by decide) a ha))
    (show ('\n' ∉ (" && \\" : String).data) by decide)

theorem noNL_pipInstallLine {e : List String} {av : String} {p : List String}
    (he : ∀ x ∈ e, noNL x) (hav : noNL av) (hp : ∀ x ∈ p, noNL x) :
    noNL (pipInstallLine e av p) :=
  noNL_append
    (noNL_append
      (noNL_append
        (noNL_append
          (noNL_append
            (show ('\n' ∉ ("RUN pip install --no-cache-dir \"apache-airflow[" : String).data) by decide)
            (noNL_pyJoin (",") (show ('\n' ∉ ("," : String).data) by decide) e he))
          (show ('\n' ∉ ("]==" : String).data) by decide))
        hav)
      (show ('\n' ∉ ("\" " : String).data) by decide))
    (noNL_pyJoin (" ") (show ('\n' ∉ (" " : String).data) by decide) p hp)

theorem renderedLines_noNL {av pv : String} {e a p : List String} {cfg : Option String}
    (hav : noNL av) (hpv : noNL pv) (he : ∀ x ∈ e, noNL x)
    (ha : ∀ x ∈ a, noNL x) (hp : ∀ x ∈ p, noNL x) :
    ∀ l ∈ renderedLines av pv e a p cfg, noNL l := by
  intro l hl
  have hFrom := noNL_fromLine hav hpv
  have hApt := noNL_aptInstallLine ha
  have hPip := noNL_pipInstallLine he hav hp
  cases hq : pyTruthy cfg <;>
    simp only [renderedLines, hq, if_true, if_false, Bool.false_eq_true, ite_true, ite_false,
      List.cons_append, List.nil_append, List.mem_cons, List.not_mem_nil, or_false] at hl
  · rcases hl with rfl | rfl | rfl | rfl | rfl | rfl | rfl | rfl | rfl | rfl | rfl | rfl | rfl |
      rfl | rfl | rfl | rfl | rfl | rfl
    all_goals first
      | exact hFrom
      | exact hApt
      | exact hPip
      | exact (show ('\n' ∉ ([] : List Char)) by decide)
      | (unfold noNL; decide)
  · rcases hl with rfl | rfl | rfl | rfl | rfl | rfl | rfl | rfl | rfl | rfl | rfl | rfl | rfl |
      rfl | rfl | rfl | rfl | rfl | rfl | rfl | rfl | rfl
    all_goals first
      | exact hFrom
      | exact hApt
      | exact hPip
      | exact (show ('\n' ∉ ([] : List Char)) by decide)
      | (unfold noNL; decide)

set_option maxRecDepth 100000 in
theorem generate_eq_joinLinesStr (av pv b : String) (e a p : List String)
    (cfg : Option String) :
    generate_dockerfile av pv b e a p cfg = joinLinesStr (renderedLines av pv e a p cfg) := by
  cases hq : pyTruthy cfg <;>
    (simp only [generate_dockerfile, renderedLines, aptInstallLine, pipInstallLine, hq,
      if_true, if_false, Bool.false_eq_true, ite_true, ite_false,
      List.cons_append, List.nil_append, joinLinesStr, String.append_assoc]
     rfl)

theorem linesOfStr_generate (av pv b : String) (e a p : List String) (cfg : Option String)
    (hav : noNL av) (hpv : noNL pv) (he : ∀ x ∈ e, noNL x)
    (ha : ∀ x ∈ a, noNL x) (hp : ∀ x ∈ p, noNL x) :
    linesOfStr (generate_dockerfile av pv b e a p cfg) = renderedLines av pv e a p cfg := by
  rw [generate_eq_joinLinesStr]
  exact linesOfStr_joinLinesStr _
    (by cases hq : pyTruthy cfg <;> simp [renderedLines, hq])
    (renderedLines_noNL hav hpv he ha hp)

theorem take7_ne {s t : String} (h : s.data.take 7 ≠ t.data.take 7) : s ≠ t := by
  intro he
  exact h (by rw [he])

theorem aptInstallLine_take (a : List String) :
    (aptInstallLine a).data.take 7 = ['R', 'U', 'N', ' ', 'a', 'p', 't'] := rfl

theorem pipInstallLine_take (e : List String) (av : String) (p : List String) :
    (pipInstallLine e av p).data.take 7 = ['R', 'U', 'N', ' ', 'p', 'i', 'p'] := rfl

theorem fromLine_take (av pv : String) :
    ("FROM apache/airflow:" ++ av ++ "-python" ++ pv).data.take 7
      = ['F', 'R', 'O', 'M', ' ', 'a', 'p'] := rfl

theorem prefixOfB_append_self : ∀ (p r : List Char), prefixOfB p (p ++ r) = true := by
  intro p
  induction p with
  | nil => intro r; rfl
  | cons c cs ih =>
      intro r
      show (c == c && prefixOfB cs (cs ++ r)) = true
      simp [ih]

theorem factorOfB_append_left (pat : List Char) :
    ∀ (x z : List Char), factorOfB pat z = true → factorOfB pat (x ++ z) = true := by
  intro x
  induction x with
  | nil => intro z h; simpa using h
  | cons c cs ih =>
      intro z h
      show (prefixOfB pat (c :: (cs ++ z)) || factorOfB pat (cs ++ z)) = true
      simp [ih z h]

theorem factorOfB_self (pat r : List Char) : factorOfB pat (pat ++ r) = true := by
  cases pat with
  | nil =>
      cases r with
      | nil => rfl
      | cons c cs => rfl
  | cons c cs =>
      show (prefixOfB (c :: cs) (c :: (cs ++ r)) || factorOfB (c :: cs) (cs ++ r)) = true
      have := prefixOfB_append_self (c :: cs) r
      simp only [List.cons_append] at this
      simp [this]

theorem containsStr_decomp (s x pat y : String) (h : s = x ++ (pat ++ y)) :
    containsStr s pat = true := by
  subst h
  unfold containsStr
  rw [String.data_append, String.data_append]
  exact factorOfB_append_left pat.data x.data _ (factorOfB_self pat.data y.data)

set_option maxRecDepth 100000 in
/-- Claim C1: for every build request, the rendered text contains the pip
install payload `apache-airflow[E]==V` — `E` the extras comma-joined in
input order, `V` the Airflow version, empty extras giving empty brackets —
followed (after the closing quote of the template) by the pip dependencies
space-joined in input order. -/
theorem spec_c1 (airflow_version python_version base_image : String)
    (extras apt_deps pip_deps : List String) (custom_airflow_cfg : Option String) :
    containsStr
      (generate_dockerfile airflow_version python_version base_image
        extras apt_deps pip_deps custom_airflow_cfg)
      ("\"apache-airflow[" ++ pyJoin (",") extras ++ "]==" ++ airflow_version ++
        "\" " ++ pyJoin (" ") pip_deps) = true := by
  cases hq : pyTruthy custom_airflow_cfg
  · apply containsStr_decomp _
      ("\nFROM apache/airflow:" ++ airflow_version ++ "-python" ++ python_version ++
        "\n\nUSER root\n\n# Install apt dependencies\nRUN apt-get update && apt-get install -y --no-install-recommends " ++
        pyJoin (" ") apt_deps ++
        " && \\\n    apt-get autoremove -yqq --purge && \\\n    apt-get clean && \\\n    rm -rf /var/lib/apt/lists/*\n\nUSER airflow\n\n# Install Airflow with extras and additional pip dependencies\nRUN pip install --no-cache-dir ")
      _ ("\n\n\nCMD [\"airflow\"]\n")
    simp only [generate_dockerfile, hq, Bool.false_eq_true, if_false, ite_false,
      String.append_assoc]
    rfl
  · apply containsStr_decomp _
      ("\nFROM apache/airflow:" ++ airflow_version ++ "-python" ++ python_version ++
        "\n\nUSER root\n\n# Install apt dependencies\nRUN apt-get update && apt-get install -y --no-install-recommends " ++
        pyJoin (" ") apt_deps ++
        " && \\\n    apt-get autoremove -yqq --purge && \\\n    apt-get clean && \\\n    rm -rf /var/lib/apt/lists/*\n\nUSER airflow\n\n# Install Airflow with extras and additional pip dependencies\nRUN pip install --no-cache-dir ")
      _ ("\n\n\n# Copy custom airflow.cfg\nCOPY airflow.cfg /opt/airflow/airflow.cfg\n\nCMD [\"airflow\"]\n")
    simp only [generate_dockerfile, hq, if_true, ite_true, String.append_assoc]
    rfl

set_option maxRecDepth 100000 in
/-- Claim C2: for every build request (whose fields, coming from
single-line widgets and newline-splitting, contain no newline), the
rendered text has exactly one line equal to the apt-get install line —
which lists every apt dependency separated by single spaces in input
order, and which for an empty list has nothing between the flags and the
trailing `&&` — and that line is immediately followed by the cleanup
lines (autoremove, clean, remove cached lists). -/
theorem spec_c2 (airflow_version python_version base_image : String)
    (extras apt_deps pip_deps : List String) (custom_airflow_cfg : Option String)
    (hav : noNL airflow_version) (hpv : noNL python_version)
    (he : ∀ x ∈ extras, noNL x) (ha : ∀ x ∈ apt_deps, noNL x)
    (hp : ∀ x ∈ pip_deps, noNL x) :
    List.count (aptInstallLine apt_deps)
        (linesOfStr (generate_dockerfile airflow_version python_version base_image
          extras apt_deps pip_deps custom_airflow_cfg)) = 1
    ∧ List.IsInfix
        [aptInstallLine apt_deps,
         "    apt-get autoremove -yqq --purge && \\",
         "    apt-get clean && \\",
         "    rm -rf /var/lib/apt/lists/*"]
        (linesOfStr (generate_dockerfile airflow_version python_version base_image
          extras apt_deps pip_deps custom_airflow_cfg))
    ∧ aptInstallLine []
        = "RUN apt-get update && apt-get install -y --no-install-recommends  && \\" := by
  rw [linesOfStr_generate _ _ _ _ _ _ _ hav hpv he ha hp]
  refine ⟨?_, ?_, rfl⟩
  · have n1 : (("" : String) == aptInstallLine apt_deps) = false :=
      beq_eq_false_iff_ne.mpr (take7_ne (by rw [aptInstallLine_take]; decide))
    have n2 : (("FROM apache/airflow:" ++ airflow_version ++ "-python" ++ python_version)
        == aptInstallLine apt_deps) = false :=
      beq_eq_false_iff_ne.mpr (take7_ne (by rw [fromLine_take, aptInstallLine_take]; decide))
    have n3 : (("USER root" : String) == aptInstallLine apt_deps) = false :=
      beq_eq_false_iff_ne.mpr (take7_ne (by rw [aptInstallLine_take]; decide))
    have n4 : (("# Install apt dependencies" : String) == aptInstallLine apt_deps) = false :=
      beq_eq_false_iff_ne.mpr (take7_ne (by rw [aptInstallLine_take]; decide))
    have n5 : (("    apt-get autoremove -yqq --purge && \\" : String)
        == aptInstallLine apt_deps) = false :=
      beq_eq_false_iff_ne.mpr (take7_ne (by rw [aptInstallLine_take]; decide))
    have n6 : (("    apt-get clean && \\" : String) == aptInstallLine apt_deps) = false :=
      beq_eq_false_iff_ne.mpr (take7_ne (by rw [aptInstallLine_take]; decide))
    have n7 : (("    rm -rf /var/lib/apt/lists/*" : String) == aptInstallLine apt_deps) = false :=
      beq_eq_false_iff_ne.mpr (take7_ne (by rw [aptInstallLine_take]; decide))
    have n8 : (("USER airflow" : String) == aptInstallLine apt_deps) = false :=
      beq_eq_false_iff_ne.mpr (take7_ne (by rw [aptInstallLine_take]; decide))
    have n9 : (("# Install Airflow with extras and additional pip dependencies" : String)
        == aptInstallLine apt_deps) = false :=
      beq_eq_false_iff_ne.mpr (take7_ne (by rw [aptInstallLine_take]; decide))
    have n10 : ((pipInstallLine extras airflow_version pip_deps)
        == aptInstallLine apt_deps) = false :=
      beq_eq_false_iff_ne.mpr (take7_ne (by rw [pipInstallLine_take, aptInstallLine_take]; decide))
    have n11 : (("# Copy custom airflow.cfg" : String) == aptInstallLine apt_deps) = false :=
      beq_eq_false_iff_ne.mpr (take7_ne (by rw [aptInstallLine_take]; decide))
    have n12 : (("COPY airflow.cfg /opt/airflow/airflow.cfg" : String)
        == aptInstallLine apt_deps) = false :=
      beq_eq_false_iff_ne.mpr (take7_ne (by rw [aptInstallLine_take]; decide))
    have n13 : (("CMD [\"airflow\"]" : String) == aptInstallLine apt_deps) = false :=
      beq_eq_false_iff_ne.mpr (take7_ne (by rw [aptInstallLine_take]; decide))
    have nself : ((aptInstallLine apt_deps) == aptInstallLine apt_deps) = true :=
      beq_self_eq_true _
    cases hq : pyTruthy custom_airflow_cfg <;>
      simp [renderedLines, hq, List.count_cons, List.count_nil, List.count_append,
        n1, n2, n3, n4, n5, n6, n7, n8, n9, n10, n11, n12, n13, nself]
  · cases hq : pyTruthy custom_airflow_cfg
    · exact ⟨["",
          "FROM apache/airflow:" ++ airflow_version ++ "-python" ++ python_version,
          "", "USER root", "", "# Install apt dependencies"],
        ["", "USER airflow", "",
          "# Install Airflow with extras and additional pip dependencies",
          pipInstallLine extras airflow_version pip_deps,
          "", "", "CMD [\"airflow\"]", ""],
        by simp [renderedLines, hq]⟩
    · exact ⟨["",
          "FROM apache/airflow:" ++ airflow_version ++ "-python" ++ python_version,
          "", "USER root", "", "# Install apt dependencies"],
        ["", "USER airflow", "",
          "# Install Airflow with extras and additional pip dependencies",
          pipInstallLine extras airflow_version pip_deps,
          "", "", "# Copy custom airflow.cfg",
          "COPY airflow.cfg /opt/airflow/airflow.cfg", "",
          "CMD [\"airflow\"]", ""],
        by simp [renderedLines, hq]⟩

/-- Witness for C2 at a concrete request: Airflow 2.9.3, Python 3.10,
one extra, two apt dependencies, one pip dependency, no custom config. -/
theorem spec_c2_witness :
    (noNL ("2.9.3") ∧ noNL ("3.10")
      ∧ (∀ x ∈ ["postgres"], noNL x) ∧ (∀ x ∈ ["vim", "curl"], noNL x)
      ∧ (∀ x ∈ ["pandas"], noNL x))
    ∧ (List.count (aptInstallLine ["vim", "curl"])
        (linesOfStr (generate_dockerfile ("2.9.3") ("3.10") ("slim")
          ["postgres"] ["vim", "curl"] ["pandas"] none)) = 1
      ∧ List.IsInfix
          [aptInstallLine ["vim", "curl"],
           "    apt-get autoremove -yqq --purge && \\",
           "    apt-get clean && \\",
           "    rm -rf /var/lib/apt/lists/*"]
          (linesOfStr (generate_dockerfile ("2.9.3") ("3.10") ("slim")
            ["postgres"] ["vim", "curl"] ["pandas"] none))
      ∧ aptInstallLine []
          = "RUN apt-get update && apt-get install -y --no-install-recommends  && \\") :=
  ⟨⟨by unfold noNL; decide, by unfold noNL; decide,
    by intro x hx; unfold noNL; simp at hx; subst hx; decide,
    by intro x hx; unfold noNL; simp at hx; rcases hx with rfl | rfl <;> decide,
    by intro x hx; unfold noNL; simp at hx; subst hx; decide⟩,
   spec_c2 ("2.9.3") ("3.10") ("slim") ["postgres"] ["vim", "curl"] ["pandas"] none
     (by unfold noNL; decide) (by unfold noNL; decide)
     (by intro x hx; unfold noNL; simp at hx; subst hx; decide)
     (by intro x hx; unfold noNL; simp at hx; rcases hx with rfl | rfl <;> decide)
     (by intro x hx; unfold noNL; simp at hx; subst hx; decide)⟩

set_option maxRecDepth 1000000 in
/-- Claim C3: for every build request with newline-free fields, the first
(non-empty) line of the rendered text is the base-image instruction
`FROM apache/airflow:{airflowVersion}-python{pythonVersion}`; and for the
specification's example request the base-image line reads
`apache/airflow:2.9.3-python3.10`, the apt line contains `vim`, the pip
line contains `apache-airflow[postgres,redis]==2.9.3`, and no config-copy
line is present. -/
theorem spec_c3 (airflow_version python_version base_image : String)
    (extras apt_deps pip_deps : List String) (custom_airflow_cfg : Option String)
    (hav : noNL airflow_version) (hpv : noNL python_version)
    (he : ∀ x ∈ extras, noNL x) (ha : ∀ x ∈ apt_deps, noNL x)
    (hp : ∀ x ∈ pip_deps, noNL x) :
    firstInstruction (generate_dockerfile airflow_version python_version base_image
        extras apt_deps pip_deps custom_airflow_cfg)
      = some ("FROM apache/airflow:" ++ airflow_version ++ "-python" ++ python_version)
    ∧ firstInstruction (render exampleRequest)
        = some ("FROM apache/airflow:2.9.3-python3.10")
    ∧ containsStr (render exampleRequest)
        ("RUN apt-get update && apt-get install -y --no-install-recommends vim && \\") = true
    ∧ containsStr (render exampleRequest)
        ("\"apache-airflow[postgres,redis]==2.9.3\"") = true
    ∧ containsStr (render exampleRequest) ("COPY airflow.cfg") = false := by
  refine ⟨?_, rfl, rfl, rfl, rfl⟩
  unfold firstInstruction
  rw [linesOfStr_generate _ _ _ _ _ _ _ hav hpv he ha hp]
  have hne : (("FROM apache/airflow:" ++ airflow_version ++ "-python" ++ python_version)
      == "") = false :=
    beq_eq_false_iff_ne.mpr (take7_ne (by rw [fromLine_take]; decide))
  cases hq : pyTruthy custom_airflow_cfg <;>
    simp [renderedLines, hq, List.find?_cons, hne]

/-- Witness for C3 at the example request's field values. -/
theorem spec_c3_witness :
    (noNL ("2.9.3") ∧ noNL ("3.10")
      ∧ (∀ x ∈ ["postgres", "redis"], noNL x) ∧ (∀ x ∈ ["vim"], noNL x)
      ∧ (∀ x ∈ ([] : List String), noNL x))
    ∧ (firstInstruction (generate_dockerfile ("2.9.3") ("3.10") ("slim")
          ["postgres", "redis"] ["vim"] [] none)
        = some ("FROM apache/airflow:" ++ "2.9.3" ++ "-python" ++ "3.10")
      ∧ firstInstruction (render exampleRequest)
          = some ("FROM apache/airflow:2.9.3-python3.10")
      ∧ containsStr (render exampleRequest)
          ("RUN apt-get update && apt-get install -y --no-install-recommends vim && \\") = true
      ∧ containsStr (render exampleRequest)
          ("\"apache-airflow[postgres,redis]==2.9.3\"") = true
      ∧ containsStr (render exampleRequest) ("COPY airflow.cfg") = false) :=
  ⟨⟨by unfold noNL; decide, by unfold noNL; decide,
    by intro x hx; unfold noNL; simp at hx; rcases hx with rfl | rfl <;> decide,
    by intro x hx; unfold noNL; simp at hx; subst hx; decide,
    by intro x hx; simp at hx⟩,
   spec_c3 ("2.9.3") ("3.10") ("slim") ["postgres", "redis"] ["vim"] [] none
     (by unfold noNL; decide) (by unfold noNL; decide)
     (by intro x hx; unfold noNL; simp at hx; rcases hx with rfl | rfl <;> decide)
     (by intro x hx; unfold noNL; simp at hx; subst hx; decide)
     (by intro x hx; simp at hx)⟩

/-- Claim C4: two build requests that differ only in `baseImage` render to
byte-identical Dockerfile text — the `baseImage` value is accepted by
`generate_dockerfile` but never interpolated. -/
theorem spec_c4 (r : BuildRequest) (b1 b2 : String) :
    render { r with baseImage := b1 } = render { r with baseImage := b2 } := rfl

set_option maxRecDepth 100000 in
/-- Claim C5: for every build request with newline-free fields, the
rendered text contains the config-copy line
`COPY airflow.cfg /opt/airflow/airflow.cfg` if and only if the custom
config is present and non-empty (Python-truthy); when it is empty or
absent the line never appears (count 0, otherwise count 1). -/
theorem spec_c5 (airflow_version python_version base_image : String)
    (extras apt_deps pip_deps : List String) (custom_airflow_cfg : Option String)
    (hav : noNL airflow_version) (hpv : noNL python_version)
    (he : ∀ x ∈ extras, noNL x) (ha : ∀ x ∈ apt_deps, noNL x)
    (hp : ∀ x ∈ pip_deps, noNL x) :
    ((("COPY airflow.cfg /opt/airflow/airflow.cfg" : String) ∈
        linesOfStr (generate_dockerfile airflow_version python_version base_image
          extras apt_deps pip_deps custom_airflow_cfg))
      ↔ pyTruthy custom_airflow_cfg = true)
    ∧ List.count ("COPY airflow.cfg /opt/airflow/airflow.cfg" : String)
        (linesOfStr (generate_dockerfile airflow_version python_version base_image
          extras apt_deps pip_deps custom_airflow_cfg))
      = (if pyTruthy custom_airflow_cfg then 1 else 0) := by
  rw [linesOfStr_generate _ _ _ _ _ _ _ hav hpv he ha hp]
  have m1 : ("COPY airflow.cfg /opt/airflow/airflow.cfg" : String)
      ≠ ("FROM apache/airflow:" ++ airflow_version ++ "-python" ++ python_version) :=
    take7_ne (by rw [fromLine_take]; decide)
  have m2 : ("COPY airflow.cfg /opt/airflow/airflow.cfg" : String)
      ≠ aptInstallLine apt_deps :=
    take7_ne (by rw [aptInstallLine_take]; decide)
  have m3 : ("COPY airflow.cfg /opt/airflow/airflow.cfg" : String)
      ≠ pipInstallLine extras airflow_version pip_deps :=
    take7_ne (by rw [pipInstallLine_take]; decide)
  have k1 : (("FROM apache/airflow:" ++ airflow_version ++ "-python" ++ python_version)
      == "COPY airflow.cfg /opt/airflow/airflow.cfg") = false :=
    beq_eq_false_iff_ne.mpr (Ne.symm m1)
  have k2 : ((aptInstallLine apt_deps)
      == "COPY airflow.cfg /opt/airflow/airflow.cfg") = false :=
    beq_eq_false_iff_ne.mpr (Ne.symm m2)
  have k3 : ((pipInstallLine extras airflow_version pip_deps)
      == "COPY airflow.cfg /opt/airflow/airflow.cfg") = false :=
    beq_eq_false_iff_ne.mpr (Ne.symm m3)
  constructor
  · cases hq : pyTruthy custom_airflow_cfg <;> simp [renderedLines, hq, m1, m2, m3]
  · cases hq : pyTruthy custom_airflow_cfg <;>
      simp [renderedLines, hq, List.count_cons, List.count_nil, List.count_append,
        k1, k2, k3]

/-- Witness for C5 at a concrete request carrying a non-empty custom
config. -/
theorem spec_c5_witness :
    (noNL ("2.9.3") ∧ noNL ("3.10")
      ∧ (∀ x ∈ ([] : List String), noNL x) ∧ (∀ x ∈ ["vim"], noNL x)
      ∧ (∀ x ∈ ([] : List String), noNL x))
    ∧ (((("COPY airflow.cfg /opt/airflow/airflow.cfg" : String) ∈
          linesOfStr (generate_dockerfile ("2.9.3") ("3.10") ("slim")
            [] ["vim"] [] (some ("[core]"))))
        ↔ pyTruthy (some ("[core]")) = true)
      ∧ List.count ("COPY airflow.cfg /opt/airflow/airflow.cfg" : String)
          (linesOfStr (generate_dockerfile ("2.9.3") ("3.10") ("slim")
            [] ["vim"] [] (some ("[core]"))))
        = (if pyTruthy (some ("[core]")) then 1 else 0)) :=
  ⟨⟨by unfold noNL; decide, by unfold noNL; decide,
    by intro x hx; simp at hx,
    by intro x hx; unfold noNL; simp at hx; subst hx; decide,
    by intro x hx; simp at hx⟩,
   spec_c5 ("2.9.3") ("3.10") ("slim") [] ["vim"] [] (some ("[core]"))
     (by unfold noNL; decide) (by unfold noNL; decide)
     (by intro x hx; simp at hx)
     (by intro x hx; unfold noNL; simp at hx; subst hx; decide)
     (by intro x hx; simp at hx)⟩

/-- Claim C6: two build requests that both carry a non-empty custom config
and differ only in its text render to byte-identical output, produce the
same `build_params` dictionary, and serialize to byte-identical JSON
bodies: only the presence of the config is observable, its content is
never written into the Dockerfile nor transmitted to the endpoint. -/
theorem spec_c6 (r : BuildRequest) (c1 c2 : String) (h1 : c1 ≠ "") (h2 : c2 ≠ "") :
    render { r with customConfig := some c1 } = render { r with customConfig := some c2 }
    ∧ build_params { r with customConfig := some c1 }
        = build_params { r with customConfig := some c2 }
    ∧ serializeParams (build_params { r with customConfig := some c1 })
        = serializeParams (build_params { r with customConfig := some c2 }) := by
  have t1 : pyTruthy (some c1) = true := by simp [pyTruthy, h1]
  have t2 : pyTruthy (some c2) = true := by simp [pyTruthy, h2]
  refine ⟨?_, rfl, rfl⟩
  simp [render, generate_dockerfile, t1, t2]

/-- Witness for C6: the example request with two different non-empty
custom config texts. -/
theorem spec_c6_witness :
    (("[core]" : String) ≠ "" ∧ ("[webserver]" : String) ≠ "")
    ∧ (render { exampleRequest with customConfig := some ("[core]") }
        = render { exampleRequest with customConfig := some ("[webserver]") }
      ∧ build_params { exampleRequest with customConfig := some ("[core]") }
          = build_params { exampleRequest with customConfig := some ("[webserver]") }
      ∧ serializeParams (build_params { exampleRequest with customConfig := some ("[core]") })
          = serializeParams
              (build_params { exampleRequest with customConfig := some ("[webserver]") })) :=
  ⟨⟨by decide, by decide⟩,
   spec_c6 exampleRequest ("[core]") ("[webserver]") (by decide) (by decide)⟩

/-- Claim C7 counterexample: at the non-2xx HTTP status 300 with a valid
JSON body, the dispatch yields a parsed result and shows no error —
`raise_for_status` only raises for 4xx/5xx — contradicting the claim that
any non-2xx status yields a `DispatchError` and no result. -/
theorem spec_c7_counterexample :
    (send_build_request (HttpOutcome.resp 300 (some [("message", "ok")]))).fst
        = some [("message", "ok")]
    ∧ (send_build_request (HttpOutcome.resp 300 (some [("message", "ok")]))).snd = [] :=
  ⟨rfl, rfl⟩

/-- Claim C7 (amended): dispatch makes exactly one attempt per call; on a
transport-level failure or an HTTP status in 400..599 it shows an error
carrying the underlying cause and returns no result, with no retry
(statuses outside that range, including 3xx, proceed to response
parsing); an HTTP 200 response with body
`{"message":"ok","image_tag":"x:1"}` yields a successful result whose
`image_tag` is `x:1`. -/
theorem spec_c7 :
    (∀ desc : String,
        send_build_request (HttpOutcome.exn desc)
          = (none, ["Error sending build request: " ++
              exnMessage (ReqException.transportFailure desc)]))
    ∧ (∀ (status : Nat) (body : Option (List (String × String))),
        400 ≤ status → status < 600 →
          send_build_request (HttpOutcome.resp status body)
            = (none, ["Error sending build request: " ++
                exnMessage (ReqException.httpError status)]))
    ∧ send_build_request
          (HttpOutcome.resp 200 (some [("message", "ok"), ("image_tag", "x:1")]))
        = (some [("message", "ok"), ("image_tag", "x:1")], [])
    ∧ List.lookup ("image_tag") [("message", "ok"), ("image_tag", "x:1")] = some ("x:1")
    ∧ (∀ oracle1 oracle2 : Nat → HttpOutcome, oracle1 0 = oracle2 0 →
        send_build_request_first oracle1 = send_build_request_first oracle2) := by
  refine ⟨fun desc => rfl, ?_, rfl, rfl, ?_⟩
  · intro status body h4 h6
    simp only [send_build_request]
    rw [if_pos (⟨h4, h6⟩ : 400 ≤ status ∧ status < 600)]
  · intro oracle1 oracle2 h
    simp only [send_build_request_first, h]

/-- Witness for C7 at status 500. -/
theorem spec_c7_witness :
    (400 ≤ 500 ∧ 500 < 600)
    ∧ send_build_request (HttpOutcome.resp 500 none)
        = (none, ["Error sending build request: " ++
            exnMessage (ReqException.httpError 500)]) :=
  ⟨⟨by decide, by decide⟩, spec_c7.2.1 500 none (by decide) (by decide)⟩

/-- Claim C8: a dispatch POSTs to the fixed endpoint
`http://172.17.0.1:8081/build-and-push` (path `/build-and-push`, port
8081), and its JSON body holds exactly the six fields `airflow_version`,
`python_version`, `base_image`, `extras`, `apt_deps`, `pip_deps`, each
bound to the corresponding request value. -/
theorem spec_c8 (r : BuildRequest) :
    (dispatchRequest r).fst = "http://172.17.0.1:8081/build-and-push"
    ∧ ((dispatchRequest r).snd).map Prod.fst
        = ["airflow_version", "python_version", "base_image",
           "extras", "apt_deps", "pip_deps"]
    ∧ List.lookup ("airflow_version") (dispatchRequest r).snd
        = some (JVal.jstr r.airflowVersion)
    ∧ List.lookup ("python_version") (dispatchRequest r).snd
        = some (JVal.jstr r.pythonVersion)
    ∧ List.lookup ("base_image") (dispatchRequest r).snd
        = some (JVal.jstr r.baseImage)
    ∧ List.lookup ("extras") (dispatchRequest r).snd = some (JVal.jlist r.extras)
    ∧ List.lookup ("apt_deps") (dispatchRequest r).snd = some (JVal.jlist r.aptDeps)
    ∧ List.lookup ("pip_deps") (dispatchRequest r).snd = some (JVal.jlist r.pipDeps) :=
  ⟨rfl, rfl, rfl, rfl, rfl, rfl, rfl, rfl⟩

/-- Claim C9: the parsed extras allowlist is exactly what the
specification describes — in file order, each kept line stripped of
surrounding whitespace, with blank (whitespace-only) lines and lines
beginning with `#` excluded. -/
theorem spec_c9 (fileLines : List String) :
    read_extras_from_file fileLines = allowlistOfLines fileLines := by
  induction fileLines with
  | nil => rfl
  | cons x xs ih =>
      have ih' : (xs.filter
            (fun line => !(pyStrip line == "") && !(line.startsWith ("#")))).map pyStrip
          = allowlistOfLines xs := ih
      show ((x :: xs).filter
            (fun line => !(pyStrip line == "") && !(line.startsWith ("#")))).map pyStrip
          = allowlistOfLines (x :: xs)
      unfold allowlistOfLines
      rw [List.filter_cons, List.filterMap_cons]
      by_cases h1 : pyStrip x = ""
      · have hb : (!(pyStrip x == "") && !(x.startsWith ("#"))) = false := by simp [h1]
        rw [hb, if_pos h1]
        simpa using ih'
      · by_cases h2 : x.startsWith ("#") = true
        · have hb : (!(pyStrip x == "") && !(x.startsWith ("#"))) = false := by simp [h2]
          rw [hb, if_neg h1, if_pos h2]
          simpa using ih'
        · have hb : (!(pyStrip x == "") && !(x.startsWith ("#"))) = true := by
            simp [h1, h2]
          rw [hb, if_neg h1, if_neg h2]
          simpa using congrArg (List.cons (pyStrip x)) ih'

/-- Claim C10: whenever the dispatch's try block raises a
`RequestException` — the POST fails at transport level, `raise_for_status`
raises on a 4xx/5xx status, or the response body fails to decode — the
handler returns `None` (no result) and reports the error instead of
letting the exception escape. -/
theorem spec_c10 (outcome : HttpOutcome)
    (h : raisesRequestException outcome = true) :
    (send_build_request outcome).fst = none
    ∧ (send_build_request outcome).snd ≠ [] := by
  cases outcome with
  | exn d => exact ⟨rfl, by simp [send_build_request]⟩
  | resp status body =>
      by_cases hs : 400 ≤ status ∧ status < 600
      · exact ⟨by simp [send_build_request, hs], by simp [send_build_request, hs]⟩
      · have hb : body = none := by
          simp only [raisesRequestException, Bool.or_eq_true, Bool.and_eq_true,
            decide_eq_true_eq, Option.isNone_iff_eq_none] at h
          exact h.resolve_left hs
        subst hb
        exact ⟨by simp [send_build_request, hs], by simp [send_build_request, hs]⟩

/-- Witness for C10 at a transport failure. -/
theorem spec_c10_witness :
    raisesRequestException (HttpOutcome.exn ("connection refused")) = true
    ∧ ((send_build_request (HttpOutcome.exn ("connection refused"))).fst = none
      ∧ (send_build_request (HttpOutcome.exn ("connection refused"))).snd ≠ []) :=
  ⟨rfl, spec_c10 (HttpOutcome.exn ("connection refused")) rfl⟩
